import Mathlib

/-!
Shallow embedding of `src/news_crawler/scraper.py` (the news-crawler
pipeline): filename sanitisation, timestamp extraction, archive path
resolution, the per-article extraction loop, the per-source build loop, and
the batched orchestrator of the `__main__` block.  Python exceptions are
modelled with `Except`; machine-level details (threads, the filesystem,
network I/O) are modelled as explicit data where the claims need them.
-/

namespace NewsCrawler

/-- Model of a Python exception value: only the class and context matter to
the control flow of the scraper, never the message. -/
inductive PyErr where
  | valueError : PyErr
  | typeError : PyErr
  | osError : PyErr
  | netError : PyErr
  deriving DecidableEq, Repr

/-- Model of a Python object in a position where the scraper expects `str`:
`unidecode` (and hence `clean_filename`) receives whatever the article's
`title` attribute holds, which can be a non-string such as `None`. -/
inductive PyObj where
  | str (s : String) : PyObj
  | nonstr : PyObj
  deriving DecidableEq, Repr

/-! ## clean_filename (scraper.py lines 37-59) -/

/-- Characters of the Python character class `r'[<>:"/\\|?*]'`
(`windows_restricted_chars` in `clean_filename`). -/
def windows_restricted_chars : List Char :=
  ['<', '>', ':', '"', '/', '\\', '|', '?', '*']

/-- Characters of the Python character class `r'[<>:"/\\|?*\']'`
(`linux_restricted_chars` in `clean_filename`): the Windows set plus the
single quote. -/
def linux_restricted_chars : List Char :=
  windows_restricted_chars ++ ['\'']

/-- Model of `re.sub(char_class, '', s)`: delete every character of the
class from the string. -/
def reSubDelete (cs : List Char) (s : String) : String :=
  ⟨s.data.filter (fun c => !cs.contains c)⟩

/-- Model of Python `s.rstrip('. ')`: drop trailing dots and spaces. -/
def pyRstripDotSpace (s : String) : String :=
  ⟨(s.data.reverse.dropWhile (fun c => c = '.' || c = ' ')).reverse⟩

/-- Model of Python `s.lower()` on the ASCII platform names `os_type`
takes (`platform.system()` returns `"Windows"`, `"Linux"`, `"Darwin"`,
...): lower-case each character. -/
def pyLower (s : String) : String :=
  ⟨s.data.map Char.toLower⟩

/-- Model of Python slicing `s[:n]`: first `n` characters. -/
def pySlice (n : Nat) (s : String) : String :=
  ⟨s.data.take n⟩

/-- Model of applying the external `unidecode` transliterator to the title
object.  On a `str` it applies the (arbitrary, parameterised)
transliteration `uni`; on a non-string argument `unidecode` raises, which
is what makes the `except` branch of `clean_filename` reachable. -/
def unidecodeApp (uni : String → String) : PyObj → Except PyErr String
  | .str s => .ok (uni s)
  | .nonstr => .error .typeError

/-- The `try` body of `clean_filename(title, os_type)`: transliterate, then
strip the restricted character class for the platform; on the
Windows/default branch also `rstrip('. ')` and truncate to `max_length`
(255).  Note the Linux branch neither rstrips nor truncates. -/
def clean_filename_body (uni : String → String) (title : PyObj)
    (os_type : String) : Except PyErr String := do
  let max_length := 255
  let title_ascii ← unidecodeApp uni title
  if pyLower os_type = "linux" then
    pure (reSubDelete linux_restricted_chars title_ascii)
  else
    let title_clean := reSubDelete windows_restricted_chars title_ascii
    let title_clean := pyRstripDotSpace title_clean
    pure (pySlice max_length title_clean)

/-- `clean_filename`: the `try` body with its `except` handler, which
returns the literal `"unknown_title"` on any internal error. -/
def clean_filename (uni : String → String) (title : PyObj)
    (os_type : String) : String :=
  match clean_filename_body uni title os_type with
  | .ok s => s
  | .error _ => "unknown_title"

/-! ## extract_year_month_day (scraper.py lines 61-77) -/

/-- Model of a Python `datetime.datetime` value (the fields the scraper
reads). -/
structure PyDateTime where
  year : Nat
  month : Nat
  day : Nat
  hour : Nat
  minute : Nat
  second : Nat
  deriving DecidableEq, Repr

/-- Model of the `timestamp` argument of `extract_year_month_day`: a
string, a pre-parsed `datetime`, or any other object (e.g. `None`), which
hits the explicit `raise ValueError("Unsupported timestamp format")`. -/
inductive PyTimestamp where
  | str (s : String) : PyTimestamp
  | dt (d : PyDateTime) : PyTimestamp
  | other : PyTimestamp
  deriving DecidableEq, Repr

/-- Gregorian leap-year rule, as used by `datetime`. -/
def isLeap (y : Nat) : Bool :=
  y % 4 = 0 && (y % 100 != 0 || y % 400 = 0)

/-- Number of days in a month of the proleptic Gregorian calendar. -/
def daysInMonth (y m : Nat) : Nat :=
  if m = 2 then (if isLeap y then 29 else 28)
  else if m = 4 || m = 6 || m = 9 || m = 11 then 30
  else 31

/-- Decimal value of an ASCII digit character. -/
def digitVal (c : Char) : Nat :=
  c.toNat - 48

/-- CPython's `_strptime.TimeRE` pattern for `%Y` is `\d\d\d\d`: exactly
four digits (`\d` is modelled as the ASCII digits here and below; the
regex's Unicode decimal digits are an idealisation this embedding does not
chase).  Each matcher consumes its field from the front of the character
list and returns the value and the rest. -/
def matchYear : List Char → Option (Nat × List Char)
  | a :: b :: c :: d :: rest =>
    if a.isDigit ∧ b.isDigit ∧ c.isDigit ∧ d.isDigit then
      some (digitVal a * 1000 + digitVal b * 100 + digitVal c * 10 +
        digitVal d, rest)
    else none
  | _ => none

/-- The `%m` pattern `1[0-2]|0[1-9]|[1-9]`: ordered alternation, two-digit
alternatives first.  (No alternative's two-character success overlaps a
one-character success continued by the format's literal separators, so the
ordered first-match rule coincides with the regex's backtracking.) -/
def matchMonth : List Char → Option (Nat × List Char)
  | a :: b :: rest =>
    if a = '1' ∧ '0' ≤ b ∧ b ≤ '2' then some (10 + digitVal b, rest)
    else if a = '0' ∧ '1' ≤ b ∧ b ≤ '9' then some (digitVal b, rest)
    else if '1' ≤ a ∧ a ≤ '9' then some (digitVal a, b :: rest)
    else none
  | [a] => if '1' ≤ a ∧ a ≤ '9' then some (digitVal a, []) else none
  | [] => none

/-- The `%d` pattern `3[0-1]|[1-2]\d|0[1-9]|[1-9]| [1-9]`: note the last
alternative, a space-padded single digit. -/
def matchDay : List Char → Option (Nat × List Char)
  | a :: b :: rest =>
    if a = '3' ∧ (b = '0' ∨ b = '1') then some (30 + digitVal b, rest)
    else if (a = '1' ∨ a = '2') ∧ b.isDigit then
      some (digitVal a * 10 + digitVal b, rest)
    else if a = '0' ∧ '1' ≤ b ∧ b ≤ '9' then some (digitVal b, rest)
    else if '1' ≤ a ∧ a ≤ '9' then some (digitVal a, b :: rest)
    else if a = ' ' ∧ '1' ≤ b ∧ b ≤ '9' then some (digitVal b, rest)
    else none
  | [a] => if '1' ≤ a ∧ a ≤ '9' then some (digitVal a, []) else none
  | [] => none

/-- The `%H` pattern `2[0-3]|[0-1]\d|\d`. -/
def matchHour : List Char → Option (Nat × List Char)
  | a :: b :: rest =>
    if a = '2' ∧ '0' ≤ b ∧ b ≤ '3' then some (20 + digitVal b, rest)
    else if (a = '0' ∨ a = '1') ∧ b.isDigit then
      some (digitVal a * 10 + digitVal b, rest)
    else if a.isDigit then some (digitVal a, b :: rest)
    else none
  | [a] => if a.isDigit then some (digitVal a, []) else none
  | [] => none

/-- The `%M` pattern `[0-5]\d|\d`. -/
def matchMinute : List Char → Option (Nat × List Char)
  | a :: b :: rest =>
    if '0' ≤ a ∧ a ≤ '5' ∧ b.isDigit then
      some (digitVal a * 10 + digitVal b, rest)
    else if a.isDigit then some (digitVal a, b :: rest)
    else none
  | [a] => if a.isDigit then some (digitVal a, []) else none
  | [] => none

/-- The `%S` pattern `6[0-1]|[0-5]\d|\d`: the regex admits the leap
seconds 60 and 61, which the `datetime` constructor then rejects. -/
def matchSecond : List Char → Option (Nat × List Char)
  | a :: b :: rest =>
    if a = '6' ∧ (b = '0' ∨ b = '1') then some (60 + digitVal b, rest)
    else if '0' ≤ a ∧ a ≤ '5' ∧ b.isDigit then
      some (digitVal a * 10 + digitVal b, rest)
    else if a.isDigit then some (digitVal a, b :: rest)
    else none
  | [a] => if a.isDigit then some (digitVal a, []) else none
  | [] => none

/-- A literal character of the format string.  `TimeRE` compiles with
`re.IGNORECASE`, so the literal `T` also matches `t` (modelled via ASCII
`Char.toLower`; `-` and `:` are unaffected). -/
def matchLit (c : Char) : List Char → Option (List Char)
  | a :: rest => if a.toLower = c.toLower then some rest else none
  | [] => none

/-- Model of `datetime.strptime(timestamp, "%Y-%m-%dT%H:%M:%S")` as
CPython implements it: `_strptime` matches the compiled pattern
`(?P<Y>\d\d\d\d)\-(?P<m>...)\-(?P<d>...)T(?P<H>...)\:(?P<M>...)\:(?P<S>...)`
against the whole string (anything left over is *unconverted data
remains*), and the `datetime` constructor then range-checks what the
regex alone does not pin down: `MINYEAR = 1` (a four-digit year can be
`0000`), the day against the month's length, and the seconds against
0..59 (the regex admits leap seconds 60-61). -/
def strptimeISO (s : String) : Except PyErr PyDateTime :=
  let parsed : Option (Nat × Nat × Nat × Nat × Nat × Nat) := do
    let (y, r) ← matchYear s.data
    let r ← matchLit '-' r
    let (m, r) ← matchMonth r
    let r ← matchLit '-' r
    let (d, r) ← matchDay r
    let r ← matchLit 'T' r
    let (h, r) ← matchHour r
    let r ← matchLit ':' r
    let (mi, r) ← matchMinute r
    let r ← matchLit ':' r
    let (se, r) ← matchSecond r
    if r = [] then pure (y, m, d, h, mi, se) else none
  match parsed with
  | none => .error .valueError
  | some (y, m, d, h, mi, se) =>
    if 1 ≤ y ∧ d ≤ daysInMonth y m ∧ se ≤ 59 then
      .ok ⟨y, m, d, h, mi, se⟩
    else
      .error .valueError

/-- Model of the Python f-string `f"{n:02d}"`: zero-pad a number to two
digits. -/
def pad2 (n : Nat) : String :=
  if n < 10 then "0" ++ toString n else toString n

/-- The `try` body of `extract_year_month_day`: dispatch on the dynamic
type of `timestamp`, raising `ValueError` for unsupported shapes, and
return `(dt.year, f"{dt.month:02d}", f"{dt.day:02d}")` — an `int` and two
strings. -/
def extract_year_month_day_body (timestamp : PyTimestamp) :
    Except PyErr (Nat × String × String) := do
  let dt ← match timestamp with
    | .str s => strptimeISO s
    | .dt d => Except.ok d
    | .other => Except.error .valueError
  pure (dt.year, pad2 dt.month, pad2 dt.day)

/-- `extract_year_month_day`: the `try` body with its `except` handler,
which returns `(None, None, None)` on any error. -/
def extract_year_month_day (timestamp : PyTimestamp) :
    Option Nat × Option String × Option String :=
  match extract_year_month_day_body timestamp with
  | .ok (y, m, d) => (some y, some m, some d)
  | .error _ => (none, none, none)

/-! ## save_article (scraper.py lines 92-119) -/

/-- A Python value that is either an `int` or a `str`: after the
`if year is None: year = 0` / `if month is None: month = 0` substitutions
in `save_article`, `year` is always an `int` while `month` is an `int`
(`0`) on extraction failure and a `str` (`f"{dt.month:02d}"`) on
success. -/
inductive IntOrStr where
  | int (n : Nat) : IntOrStr
  | str (s : String) : IntOrStr
  deriving DecidableEq, Repr

/-- Model of the f-string conversion `{v:02}` (CPython ≥ 3.10): an `int`
is zero-padded to two digits; a `str` is padded to width 2 with the fill
character `'0'` and the default (left) alignment.  The strings formatted
by `save_article` are the already two-digit `f"{..:02d}"` outputs of
`extract_year_month_day`, on which this is the identity. -/
def pyFormat02 : IntOrStr → String
  | .int n => pad2 n
  | .str s => s ++ String.mk (List.replicate (2 - s.length) '0')

/-- Model of Python `str(v)`. -/
def pyStrOf : IntOrStr → String
  | .int n => toString n
  | .str s => s

/-- The pure path computation at the head of `save_article`'s `try` block
(scraper.py lines 94-112): clean the title, extract the date triple,
substitute `0` for a missing year or month, pick the filename branch on
`day is not None`, and join `base/brand/str(year)/str(month)`.  Paths are
modelled as their `os.path.join` component lists. -/
def resolve_archive_path (uni : String → String) (base : List String)
    (brand : String) (title : PyObj) (publish_date : PyTimestamp)
    (os_type : String) : List String × String :=
  let clean_title := clean_filename uni title os_type
  let extracted := extract_year_month_day publish_date
  let year : IntOrStr := match extracted.1 with
    | none => .int 0
    | some y => .int y
  let month : IntOrStr := match extracted.2.1 with
    | none => .int 0
    | some m => .str m
  let filename := match extracted.2.2 with
    | some day =>
      pyFormat02 year ++ "-" ++ pyFormat02 month ++ "-" ++
        pyFormat02 (.str day) ++ " " ++ clean_title ++ ".json"
    | none =>
      pyFormat02 year ++ "-" ++ pyFormat02 month ++ " " ++ clean_title ++
        ".json"
  let save_directory := base ++ [brand, pyStrOf year, pyStrOf month]
  (save_directory, filename)

/-- An article as `save_article` sees it: the attributes it reads plus the
outcomes of its two filesystem effects, supplied as oracles (`true` means
the corresponding OS call raises). -/
structure Article where
  title : PyObj
  publish_date : PyTimestamp
  jsonData : String
  mkdirRaises : Bool
  writeRaises : Bool
  deriving DecidableEq, Repr

/-- Model of `create_directories(path)` (scraper.py lines 79-89): the
`except` branch logs and re-raises, so a filesystem failure propagates to
the caller; otherwise the call returns (creating the directory is an
effect on the external filesystem, represented by the oracle bit). -/
def create_directories (raisesFlag : Bool) : Except PyErr Unit :=
  if raisesFlag then .error .osError else .ok ()

/-- What one call to `save_article` did. -/
inductive SaveOutcome where
  | saved (dir : List String) (file : String) : SaveOutcome
  | writeErrorLogged (dir : List String) (file : String) (e : PyErr) :
      SaveOutcome
  | failedLogged (e : PyErr) : SaveOutcome
  deriving DecidableEq, Repr

/-- The `try` body of `save_article`: resolve the path, create the
directory (whose failure re-raises), then write the JSON inside an inner
`try` whose `except` only logs — a write failure does not escape. -/
def save_article_body (uni : String → String) (base : List String)
    (os_type : String) (brand : String) (a : Article) :
    Except PyErr SaveOutcome := do
  let (save_directory, filename) :=
    resolve_archive_path uni base brand a.title a.publish_date os_type
  _ ← create_directories a.mkdirRaises
  if a.writeRaises then
    pure (.writeErrorLogged save_directory filename .osError)
  else
    pure (.saved save_directory filename)

/-- `save_article`: the `try` body with its outer `except` handler, which
logs and swallows every error, so `save_article` itself never raises. -/
def save_article (uni : String → String) (base : List String)
    (os_type : String) (brand : String) (a : Article) : SaveOutcome :=
  match save_article_body uni base os_type brand a with
  | .ok r => r
  | .error e => .failedLogged e

/-! ## NewsCrawler.build_source / build_sources / extract_information
(scraper.py lines 121-186) -/

/-- An article as the extraction loop sees it: the three engine calls
`download()`, `parse()`, `nlp()` are external and may each raise, so their
outcomes are data; `art` is the attribute view consumed by
`save_article`. -/
structure CrawlArticle where
  downloadRes : Except PyErr Unit
  parseRes : Except PyErr Unit
  nlpRes : Except PyErr Unit
  art : Article
  deriving Repr

/-- A `newspaper.Source` as the crawler sees it: `build()` is external and
may raise (`buildRes` is its outcome); `articles` is the article list the
loops iterate over. -/
structure PySource where
  url : String
  brand : String
  buildRes : Except PyErr Unit
  articles : List CrawlArticle
  deriving Repr

/-- What one `build_source` task did. -/
inductive BuildOutcome where
  | built : BuildOutcome
  | errorLogged (e : PyErr) : BuildOutcome
  deriving DecidableEq, Repr

/-- `build_source` (scraper.py lines 141-146): calls `source.build()`
inside a `try` whose `except` logs and swallows, so the task itself never
raises. -/
def build_source (src : PySource) : BuildOutcome :=
  match src.buildRes with
  | .ok _ => .built
  | .error e => .errorLogged e

/-- `build_sources` (scraper.py lines 148-161).  The executor submits one
`build_source` task per source unconditionally (the dict comprehension),
the tasks are independent, and `as_completed` yields every future exactly
once; since `build_source` swallows its own errors, `future.result()`
returns normally for each, and the surrounding `try` blocks never fire.
The nondeterministic completion order is irrelevant to the recorded
per-source outcomes, which we list in submission order. -/
def build_sources (sources : List PySource) :
    Except PyErr (List (String × BuildOutcome)) :=
  .ok (sources.map fun src => (src.url, build_source src))

/-- What processing one article in `extract_information` did. -/
inductive ArticleOutcome where
  | processed (r : SaveOutcome) : ArticleOutcome
  | errorLogged (e : PyErr) : ArticleOutcome
  deriving DecidableEq, Repr

/-- The body of the inner `try` of `extract_information` (scraper.py lines
176-180): `article.download()`, `article.parse()`, `article.nlp()` in
sequence — each may raise — then `save_article`, which never raises. -/
def process_article_body (uni : String → String) (base : List String)
    (os_type : String) (brand : String) (ca : CrawlArticle) :
    Except PyErr SaveOutcome := do
  _ ← ca.downloadRes
  _ ← ca.parseRes
  _ ← ca.nlpRes
  pure (save_article uni base os_type brand ca.art)

/-- One iteration of the per-article loop: the inner `try` with its
`except`, which logs the error and lets the loop continue. -/
def process_article (uni : String → String) (base : List String)
    (os_type : String) (brand : String) (ca : CrawlArticle) :
    ArticleOutcome :=
  match process_article_body uni base os_type brand ca with
  | .ok r => .processed r
  | .error e => .errorLogged e

/-- The per-source inner loop of `extract_information`: every article of
the source is processed in order, each under its own `try`. -/
def extract_source (uni : String → String) (base : List String)
    (os_type : String) (src : PySource) : List ArticleOutcome :=
  src.articles.map (process_article uni base os_type src.brand)

/-- `extract_information` (scraper.py lines 163-186): the outer `try`
wraps the two nested loops; every statement inside them is total (each
article's exception is already caught per article), so the outer handler
never fires and the result is the per-source, per-article outcome
trace. -/
def extract_information (uni : String → String) (base : List String)
    (os_type : String) (sources : List PySource) :
    Except PyErr (List (String × List ArticleOutcome)) :=
  .ok (sources.map fun src => (src.url, extract_source uni base os_type src))

/-! ## The `__main__` orchestrator (scraper.py lines 188-230) -/

set_option linter.unusedVariables false in
/-- Model of the batch slicing `for i in range(0, len(source_urls),
sources_per_batch): source_urls[i:i+sources_per_batch]`.  Python's
`range` raises `ValueError` on step 0, so the loop only runs with a
positive step; the `spb = 0` guard here is for termination only and is
excluded by the `0 < spb` hypotheses of the theorems. -/
def sliceBatches (spb : Nat) (urls : List String) : List (List String) :=
  if h : spb = 0 ∨ urls = [] then []
  else urls.take spb :: sliceBatches spb (urls.drop spb)
termination_by urls.length
decreasing_by
  push_neg at h
  obtain ⟨hspb, hurls⟩ := h
  have hlen : 0 < urls.length := List.length_pos.mpr hurls
  simpa using Nat.sub_lt hlen (Nat.pos_of_ne_zero hspb)

/-- One phase event of a cycle trace: each constructor records the batch
of URLs the phase ran over. -/
inductive Phase where
  | build (urls : List String) : Phase
  | fetch (urls : List String) : Phase
  | extractArticles (urls : List String) : Phase
  deriving DecidableEq, Repr

/-- The per-batch body of the main loop: `NewsCrawler(batch_urls)` then
`build_sources`, `crawl_articles`, `extract_information`, strictly in
sequence within the batch, one batch after the other. -/
def run_batches : List (List String) → List Phase
  | [] => []
  | b :: bs => .build b :: .fetch b :: .extractArticles b :: run_batches bs

/-- One cycle of the `while True` loop: partition the url list into
batches and run the three phases for each batch in order. -/
def run_cycle (spb : Nat) (urls : List String) : List Phase :=
  run_batches (sliceBatches spb urls)

/-! ## check_and_create_base_directory (scraper.py lines 23-35) -/

/-- Model of the filesystem as far as this function observes it: the
working directory and the set of existing paths. -/
structure FS where
  cwd : List String
  dirs : List (List String)
  deriving DecidableEq, Repr

/-- Model of `os.makedirs(path, exist_ok=True)`: add the path if absent,
no-op if it already exists. -/
def makedirs (fs : FS) (p : List String) : FS :=
  { fs with dirs := if p ∈ fs.dirs then fs.dirs else p :: fs.dirs }

/-- `check_and_create_base_directory(base_directory)`: if the configured
directory does not exist, create and return
`os.path.join(os.getcwd(), 'archive', 'news')`; otherwise return the
configured directory unchanged.  Returns the chosen path and the updated
filesystem. -/
def check_and_create_base_directory (fs : FS) (base_directory : List String) :
    List String × FS :=
  if base_directory ∈ fs.dirs then
    (base_directory, fs)
  else
    let local_directory := fs.cwd ++ ["archive", "news"]
    (local_directory, makedirs fs local_directory)

/-! ## Helper lemmas -/

lemma le_toDigitsCore_length : ∀ (f n : Nat) (ds : List Char),
    ds.length ≤ (Nat.toDigitsCore 10 f n ds).length := by
  intro f
  induction f with
  | zero => intro n ds; simp [Nat.toDigitsCore]
  | succ f ih =>
    intro n ds
    simp only [Nat.toDigitsCore]
    split
    · simp
    · exact le_trans (by simp) (ih _ _)

lemma succ_le_toDigitsCore_length (f n : Nat) (ds : List Char) (hf : 0 < f) :
    ds.length + 1 ≤ (Nat.toDigitsCore 10 f n ds).length := by
  cases f with
  | zero => omega
  | succ f =>
    simp only [Nat.toDigitsCore]
    split
    · simp
    · exact le_trans (by simp) (le_toDigitsCore_length f _ _)

lemma one_le_repr_length (n : Nat) : 1 ≤ (Nat.repr n).length := by
  have h := succ_le_toDigitsCore_length (n + 1) n [] (Nat.succ_pos n)
  simpa [Nat.repr, Nat.toDigits, List.asString, String.length] using h

lemma two_le_repr_length (n : Nat) (h : 10 ≤ n) : 2 ≤ (Nat.repr n).length := by
  have hd : n / 10 ≠ 0 := by
    have h1 : 1 ≤ n / 10 := (Nat.one_le_div_iff (by norm_num)).mpr h
    omega
  have h2 := succ_le_toDigitsCore_length n (n / 10)
      [Nat.digitChar (n % 10)] (by omega)
  simp only [Nat.repr, Nat.toDigits, Nat.toDigitsCore, hd, if_false,
    List.asString, String.length] at h2 ⊢
  simpa using h2

lemma two_le_pad2_length (n : Nat) : 2 ≤ (pad2 n).length := by
  unfold pad2
  split
  · rw [show (toString n : String) = Nat.repr n from rfl, String.length_append]
    have h1 := one_le_repr_length n
    have h0 : ("0" : String).length = 1 := rfl
    omega
  · exact two_le_repr_length n (by omega)

lemma pyFormat02_of_two_le (s : String) (h : 2 ≤ s.length) :
    pyFormat02 (.str s) = s := by
  have h0 : 2 - s.length = 0 := Nat.sub_eq_zero_of_le h
  apply String.ext
  simp [pyFormat02, h0, String.data_append]

lemma pyFormat02_pad2 (n : Nat) : pyFormat02 (.str (pad2 n)) = pad2 n :=
  pyFormat02_of_two_le (pad2 n) (two_le_pad2_length n)

lemma clean_filename_str_linux (uni : String → String) (s os_type : String)
    (h : pyLower os_type = "linux") :
    clean_filename uni (.str s) os_type =
      reSubDelete linux_restricted_chars (uni s) := by
  simp [clean_filename, clean_filename_body, unidecodeApp, h]

lemma clean_filename_str_other (uni : String → String) (s os_type : String)
    (h : ¬ pyLower os_type = "linux") :
    clean_filename uni (.str s) os_type =
      pySlice 255 (pyRstripDotSpace (reSubDelete windows_restricted_chars
        (uni s))) := by
  simp [clean_filename, clean_filename_body, unidecodeApp, h]

lemma clean_filename_nonstr (uni : String → String) (os_type : String) :
    clean_filename uni .nonstr os_type = "unknown_title" := rfl

lemma not_mem_of_mem_reSubDelete {c : Char} {cs : List Char} {s : String}
    (h : c ∈ (reSubDelete cs s).data) : c ∉ cs := by
  simp only [reSubDelete, List.mem_filter] at h
  simpa using h.2

lemma mem_of_mem_pyRstripDotSpace {c : Char} {s : String}
    (h : c ∈ (pyRstripDotSpace s).data) : c ∈ s.data := by
  simp only [pyRstripDotSpace] at h
  have h1 := List.mem_reverse.mp h
  have h2 := (List.dropWhile_sublist _).subset h1
  exact List.mem_reverse.mp h2

lemma mem_of_mem_pySlice {c : Char} {n : Nat} {s : String}
    (h : c ∈ (pySlice n s).data) : c ∈ s.data :=
  List.take_subset n s.data h

lemma length_pySlice_le (n : Nat) (s : String) : (pySlice n s).length ≤ n :=
  s.data.length_take_le n

/-- Fidelity check at the `%Y` boundary: a three-digit year does not match
`\d\d\d\d`, so the string raises `ValueError` — as CPython does. -/
lemma strptimeISO_three_digit_year :
    strptimeISO "202-03-05T10:00:00" = .error .valueError := rfl

/-- Fidelity check at the `%d` boundary: a space-padded single-digit day
matches the ` [1-9]` alternative of `%d`, so the string parses — as
CPython does. -/
lemma strptimeISO_space_padded_day :
    strptimeISO "2024-03- 5T10:00:00" = .ok ⟨2024, 3, 5, 10, 0, 0⟩ := rfl

lemma extract_body_str_err {s : String} {e : PyErr}
    (h : strptimeISO s = .error e) :
    extract_year_month_day_body (.str s) = .error e := by
  simp [extract_year_month_day_body, h]

lemma extract_body_str_ok {s : String} {dt : PyDateTime}
    (h : strptimeISO s = .ok dt) :
    extract_year_month_day_body (.str s) =
      .ok (dt.year, pad2 dt.month, pad2 dt.day) := by
  simp [extract_year_month_day_body, h]

lemma extract_body_dt (d : PyDateTime) :
    extract_year_month_day_body (.dt d) = .ok (d.year, pad2 d.month, pad2 d.day) :=
  rfl

lemma extract_body_other :
    extract_year_month_day_body .other = .error .valueError := rfl

lemma extract_of_body_err {ts : PyTimestamp} {e : PyErr}
    (h : extract_year_month_day_body ts = .error e) :
    extract_year_month_day ts = (none, none, none) := by
  simp [extract_year_month_day, h]

lemma extract_of_body_ok {ts : PyTimestamp} {y : Nat} {m d : String}
    (h : extract_year_month_day_body ts = .ok (y, m, d)) :
    extract_year_month_day ts = (some y, some m, some d) := by
  simp [extract_year_month_day, h]

lemma extract_body_ok_shape {ts : PyTimestamp} {y : Nat} {m d : String}
    (h : extract_year_month_day_body ts = .ok (y, m, d)) :
    ∃ dt : PyDateTime, y = dt.year ∧ m = pad2 dt.month ∧ d = pad2 dt.day := by
  cases ts with
  | str s =>
    cases h' : strptimeISO s with
    | ok dt =>
      rw [extract_body_str_ok h'] at h
      simp only [Except.ok.injEq, Prod.mk.injEq] at h
      exact ⟨dt, h.1.symm, h.2.1.symm, h.2.2.symm⟩
    | error e =>
      rw [extract_body_str_err h'] at h
      simp at h
  | dt d0 =>
    rw [extract_body_dt] at h
    simp only [Except.ok.injEq, Prod.mk.injEq] at h
    exact ⟨d0, h.1.symm, h.2.1.symm, h.2.2.symm⟩
  | other =>
    rw [extract_body_other] at h
    simp at h

lemma extract_cases (ts : PyTimestamp) :
    extract_year_month_day ts = (none, none, none) ∨
      ∃ y m d, extract_year_month_day ts = (some y, some m, some d) := by
  cases h : extract_year_month_day_body ts with
  | error e => exact Or.inl (extract_of_body_err h)
  | ok v =>
    obtain ⟨y, m, d⟩ := v
    exact Or.inr ⟨y, m, d, extract_of_body_ok h⟩

lemma resolve_of_none (uni : String → String) (base : List String)
    (brand : String) (title : PyObj) (ts : PyTimestamp) (os_type : String)
    (h : extract_year_month_day ts = (none, none, none)) :
    resolve_archive_path uni base brand title ts os_type =
      (base ++ [brand, "0", "0"],
        "00-00 " ++ clean_filename uni title os_type ++ ".json") := by
  unfold resolve_archive_path
  rw [h]
  rfl

lemma resolve_of_some (uni : String → String) (base : List String)
    (brand : String) (title : PyObj) (ts : PyTimestamp) (os_type : String)
    (y : Nat) (m d : String)
    (h : extract_year_month_day ts = (some y, some m, some d))
    (hm : 2 ≤ m.length) (hd : 2 ≤ d.length) :
    resolve_archive_path uni base brand title ts os_type =
      (base ++ [brand, Nat.repr y, m],
        pad2 y ++ "-" ++ m ++ "-" ++ d ++ " " ++
          clean_filename uni title os_type ++ ".json") := by
  unfold resolve_archive_path
  rw [h]
  simp only [pyFormat02_of_two_le m hm, pyFormat02_of_two_le d hd]
  rfl

/-! ## Claims -/

set_option maxRecDepth 8000 in
/-- C3, counterexample: the claim promises, for every os_type, a result of
length at most 255 containing neither the reserved characters nor the
single quote.  Both halves fail: the Linux branch of `clean_filename`
never truncates (a 256-character title passes through at length 256), and
the Windows branch does not strip the single quote. -/
theorem clean_filename_c3_counterexample :
    255 <
      (clean_filename id (PyObj.str (String.mk (List.replicate 256 'a')))
        "linux").length
    ∧ '\'' ∈
      (clean_filename id (PyObj.str (String.mk ['i', 't', '\'', 's']))
        "Windows").data := by
  constructor
  · rw [clean_filename_str_linux id _ "linux" (by decide)]
    decide
  · rw [clean_filename_str_other id _ "Windows" (by decide)]
    decide

/-- C3 (amended): for every transliteration, title and os_type,
`clean_filename` never raises (it is total, returning `"unknown_title"` on
internal error) and its result contains none of the reserved characters
`< > : " / \ | ? *`; on the Linux branch the single quote is removed as
well (but no length bound is enforced), and on the Windows/default branch
the result has length at most 255 (but the single quote may remain). -/
theorem clean_filename_sanitizes (uni : String → String) (title : PyObj)
    (os_type : String) :
    (∀ c ∈ (clean_filename uni title os_type).data,
        c ∉ windows_restricted_chars)
    ∧ (pyLower os_type = "linux" →
        '\'' ∉ (clean_filename uni title os_type).data)
    ∧ (pyLower os_type ≠ "linux" →
        (clean_filename uni title os_type).length ≤ 255) := by
  cases title with
  | nonstr =>
    rw [clean_filename_nonstr]
    exact ⟨by decide, fun _ => by decide, fun _ => by decide⟩
  | str s =>
    by_cases h : pyLower os_type = "linux"
    · rw [clean_filename_str_linux uni s os_type h]
      refine ⟨?_, fun _ => ?_, fun h' => absurd h h'⟩
      · intro c hc
        intro hw
        exact not_mem_of_mem_reSubDelete hc
          (by simp [linux_restricted_chars]; exact Or.inl hw)
      · intro hq
        exact not_mem_of_mem_reSubDelete hq (by decide)
    · rw [clean_filename_str_other uni s os_type h]
      refine ⟨?_, fun hl => absurd hl h, fun _ => ?_⟩
      · intro c hc
        exact not_mem_of_mem_reSubDelete
          (mem_of_mem_pyRstripDotSpace (mem_of_mem_pySlice hc))
      · exact length_pySlice_le 255 _

/-- C3, witness: the amended theorem applied on the Linux branch (reserved
character and quote both removed) and on the Windows branch (length
bound). -/
theorem clean_filename_sanitizes_witness :
    '<' ∉ (clean_filename id (PyObj.str (String.mk ['a', '<', 'b', '\'']))
        "linux").data
    ∧ '\'' ∉ (clean_filename id (PyObj.str (String.mk ['a', '<', 'b', '\'']))
        "linux").data
    ∧ (clean_filename id (PyObj.str (String.mk ['a', '<', 'b', '\'']))
        "Windows").length ≤ 255 := by
  have h1 := clean_filename_sanitizes id
    (PyObj.str (String.mk ['a', '<', 'b', '\''])) "linux"
  have h2 := clean_filename_sanitizes id
    (PyObj.str (String.mk ['a', '<', 'b', '\''])) "Windows"
  exact ⟨fun hc => absurd (h1.1 '<' hc) (by decide), h1.2.1 (by decide),
    h2.2.2 (by decide)⟩

/-- C9: `clean_filename` never propagates an exception — whenever its
`try` body raises, it returns the literal string `"unknown_title"`. -/
theorem clean_filename_never_raises (uni : String → String) (title : PyObj)
    (os_type : String) (e : PyErr)
    (h : clean_filename_body uni title os_type = .error e) :
    clean_filename uni title os_type = "unknown_title" := by
  simp [clean_filename, h]

/-- C9, witness: a non-string title makes `unidecode` raise inside the
body, and `clean_filename` returns the fallback. -/
theorem clean_filename_never_raises_witness :
    clean_filename id PyObj.nonstr "Windows" = "unknown_title" :=
  clean_filename_never_raises id PyObj.nonstr "Windows" PyErr.typeError rfl

/-- C4: for every timestamp that is neither a string parseable in the
fixed `%Y-%m-%dT%H:%M:%S` format nor a pre-parsed datetime,
`extract_year_month_day` returns `(None, None, None)` instead of raising,
and `save_article` then substitutes `0` for the missing year and month —
the article is still written (to `base/brand/0/0/"00-00 <title>.json"`),
not skipped. -/
theorem extract_malformed_defaults (ts : PyTimestamp)
    (h : ts = .other ∨ ∃ s e, ts = .str s ∧ strptimeISO s = .error e) :
    extract_year_month_day ts = (none, none, none)
    ∧ ∀ (uni : String → String) (base : List String) (os_type brand : String)
        (a : Article), a.publish_date = ts → a.mkdirRaises = false →
        a.writeRaises = false →
        save_article uni base os_type brand a =
          .saved (base ++ [brand, "0", "0"])
            ("00-00 " ++ clean_filename uni a.title os_type ++ ".json") := by
  have hex : extract_year_month_day ts = (none, none, none) := by
    rcases h with rfl | ⟨s, e, rfl, hs⟩
    · exact extract_of_body_err extract_body_other
    · exact extract_of_body_err (extract_body_str_err hs)
  refine ⟨hex, ?_⟩
  intro uni base os_type brand a hpd hmk hwr
  have hres := resolve_of_none uni base brand a.title a.publish_date os_type
    (by rw [hpd]; exact hex)
  simp [save_article, save_article_body, hres, create_directories, hmk, hwr]

/-- C4, witness: the unparseable string `"not-a-date"` yields the
`(None, None, None)` triple and the article is saved under
`base/brand/0/0` with a `"00-00"`-prefixed filename. -/
theorem extract_malformed_defaults_witness :
    extract_year_month_day (.str "not-a-date") = (none, none, none)
    ∧ save_article id ["base"] "Windows" "brand"
        ⟨PyObj.str "Title", .str "not-a-date", "payload", false, false⟩ =
        .saved ["base", "brand", "0", "0"] "00-00 Title.json" := by
  have h := extract_malformed_defaults (.str "not-a-date")
    (Or.inr ⟨"not-a-date", .valueError, rfl, rfl⟩)
  exact ⟨h.1, h.2 id ["base"] "Windows" "brand"
    ⟨PyObj.str "Title", .str "not-a-date", "payload", false, false⟩
    rfl rfl rfl⟩

/-- C10: `extract_year_month_day` is all-or-nothing — the triple is either
`(None, None, None)` or has all three components present; hence the
day-less filename branch of `save_article` is taken exactly when
extraction failed, and then the filename is `"00-00"`-prefixed. -/
theorem extract_all_or_nothing (ts : PyTimestamp) :
    (extract_year_month_day ts = (none, none, none) ∨
      ∃ y m d, extract_year_month_day ts = (some y, some m, some d))
    ∧ ((extract_year_month_day ts).2.2 = none ↔
        extract_year_month_day ts = (none, none, none))
    ∧ (∀ (uni : String → String) (base : List String) (brand : String)
        (title : PyObj) (os_type : String),
        extract_year_month_day ts = (none, none, none) →
        (resolve_archive_path uni base brand title ts os_type).2 =
          "00-00 " ++ clean_filename uni title os_type ++ ".json") := by
  refine ⟨extract_cases ts, ⟨?_, ?_⟩, ?_⟩
  · intro h2
    rcases extract_cases ts with h | ⟨y, m, d, h⟩
    · exact h
    · rw [h] at h2
      simp at h2
  · intro h
    rw [h]
  · intro uni base brand title os_type h
    rw [resolve_of_none uni base brand title ts os_type h]

/-- C10, witness: an unsupported timestamp object fails extraction and
produces the day-less, `"00-00"`-prefixed filename. -/
theorem extract_all_or_nothing_witness :
    (resolve_archive_path id ["base"] "brand" (PyObj.str "Title")
        PyTimestamp.other "Windows").2 = "00-00 Title.json" :=
  (extract_all_or_nothing PyTimestamp.other).2.2 id ["base"] "brand"
    (PyObj.str "Title") "Windows" rfl

/-- C5, counterexample: for a successfully parsed timestamp (day
available) the claim's quoted shape `"{year:02d}-{month} {title}.json"`
(no day segment) is not the filename the code builds — the code inserts
the `-{day}` segment. -/
theorem save_filename_day_counterexample :
    (resolve_archive_path id ["base"] "brand" (PyObj.str "Title")
        (PyTimestamp.str "2024-03-05T10:00:00") "Windows").2 ≠
      "2024-03 Title.json"
    ∧ (resolve_archive_path id ["base"] "brand" (PyObj.str "Title")
        (PyTimestamp.str "2024-03-05T10:00:00") "Windows").2 =
      "2024-03-05 Title.json" := by
  constructor
  · decide
  · rfl

/-- C5 (amended): the filename is
`"{year:02d}-{month}-{day} {title}.json"` when the day is available and
`"{year:02d}-{month} {title}.json"` (with year and month both `0`)
otherwise, so the presence or absence of the day changes the filename
only by the `-{day}` segment. -/
theorem save_filename_shape (uni : String → String) (base : List String)
    (brand : String) (title : PyObj) (ts : PyTimestamp) (os_type : String) :
    (∀ y m d, extract_year_month_day ts = (some y, some m, some d) →
      (resolve_archive_path uni base brand title ts os_type).2 =
        pad2 y ++ "-" ++ m ++ "-" ++ d ++ " " ++
          clean_filename uni title os_type ++ ".json")
    ∧ (extract_year_month_day ts = (none, none, none) →
      (resolve_archive_path uni base brand title ts os_type).2 =
        pad2 0 ++ "-" ++ pad2 0 ++ " " ++
          clean_filename uni title os_type ++ ".json") := by
  constructor
  · intro y m d h
    have hb : extract_year_month_day_body ts = .ok (y, m, d) := by
      cases hb' : extract_year_month_day_body ts with
      | error e =>
        rw [extract_of_body_err hb'] at h
        simp at h
      | ok v =>
        obtain ⟨y', m', d'⟩ := v
        rw [extract_of_body_ok hb'] at h
        simp only [Prod.mk.injEq, Option.some.injEq] at h
        obtain ⟨h1, h2, h3⟩ := h
        subst h1
        subst h2
        subst h3
        rfl
    obtain ⟨dt, hy, hm, hd⟩ := extract_body_ok_shape hb
    rw [resolve_of_some uni base brand title ts os_type y m d h
      (by rw [hm]; exact two_le_pad2_length dt.month)
      (by rw [hd]; exact two_le_pad2_length dt.day)]
  · intro h
    rw [resolve_of_none uni base brand title ts os_type h]
    rfl

/-- C5, witness: the two filename branches at concrete inputs — a parsed
timestamp produces the dayful shape, a failed extraction the day-less
shape. -/
theorem save_filename_shape_witness :
    (resolve_archive_path id ["base"] "brand" (PyObj.str "Title")
        (PyTimestamp.str "2024-03-05T10:00:00") "Windows").2 =
      "2024-03-05 Title.json"
    ∧ (resolve_archive_path id ["base"] "brand" (PyObj.str "Title")
        PyTimestamp.other "Windows").2 = "00-00 Title.json" := by
  constructor
  · exact (save_filename_shape id ["base"] "brand" (PyObj.str "Title")
      (PyTimestamp.str "2024-03-05T10:00:00") "Windows").1 2024 "03" "05" rfl
  · exact (save_filename_shape id ["base"] "brand" (PyObj.str "Title")
      PyTimestamp.other "Windows").2 rfl

/-- C6: archive path resolution is a pure deterministic function of
(base directory, brand, publish timestamp, title, os_type): two articles
agreeing on title and publish date resolve to the identical directory and
filename, and under equal filesystem outcomes `save_article` behaves
identically on them, whatever their other payload. -/
theorem archive_path_deterministic (uni : String → String)
    (base : List String) (brand os_type : String) (a1 a2 : Article)
    (ht : a1.title = a2.title) (hp : a1.publish_date = a2.publish_date) :
    resolve_archive_path uni base brand a1.title a1.publish_date os_type =
      resolve_archive_path uni base brand a2.title a2.publish_date os_type
    ∧ (a1.mkdirRaises = a2.mkdirRaises → a1.writeRaises = a2.writeRaises →
        save_article uni base os_type brand a1 =
          save_article uni base os_type brand a2) := by
  refine ⟨by rw [ht, hp], ?_⟩
  intro hm hw
  have h1 : save_article uni base os_type brand a1 =
      save_article uni base os_type brand
        ⟨a2.title, a2.publish_date, a1.jsonData, a2.mkdirRaises,
          a2.writeRaises⟩ := by
    rw [← ht, ← hp, ← hm, ← hw]
  rw [h1]
  exact rfl

/-- C6, witness: two articles identical except for their JSON payload
resolve and save identically. -/
theorem archive_path_deterministic_witness :
    resolve_archive_path id ["base"] "news" (PyObj.str "Title")
        PyTimestamp.other "Windows" =
      resolve_archive_path id ["base"] "news" (PyObj.str "Title")
        PyTimestamp.other "Windows"
    ∧ save_article id ["base"] "Windows" "news"
        ⟨PyObj.str "Title", PyTimestamp.other, "payload-one", false, false⟩ =
      save_article id ["base"] "Windows" "news"
        ⟨PyObj.str "Title", PyTimestamp.other, "payload-two", false, false⟩ := by
  have h := archive_path_deterministic id ["base"] "news" "Windows"
    ⟨PyObj.str "Title", PyTimestamp.other, "payload-one", false, false⟩
    ⟨PyObj.str "Title", PyTimestamp.other, "payload-two", false, false⟩
    rfl rfl
  exact ⟨h.1, h.2 rfl rfl⟩

/-- C8: if the configured base archive directory does not exist,
`check_and_create_base_directory` returns the local fallback
`cwd/archive/news`, creating it; if it exists, it is returned with the
filesystem unchanged. -/
theorem base_directory_fallback (fs : FS) (base_directory : List String) :
    (base_directory ∉ fs.dirs →
      (check_and_create_base_directory fs base_directory).1 =
        fs.cwd ++ ["archive", "news"]
      ∧ fs.cwd ++ ["archive", "news"] ∈
        (check_and_create_base_directory fs base_directory).2.dirs)
    ∧ (base_directory ∈ fs.dirs →
      check_and_create_base_directory fs base_directory =
        (base_directory, fs)) := by
  constructor
  · intro h
    refine ⟨by simp [check_and_create_base_directory, h], ?_⟩
    simp only [check_and_create_base_directory, h, if_false, makedirs]
    by_cases h2 : fs.cwd ++ ["archive", "news"] ∈ fs.dirs <;> simp [h2]
  · intro h
    simp [check_and_create_base_directory, h]

/-- C8, witness: a missing configured directory falls back to
`home/archive/news` and records it; an existing one is returned
unchanged. -/
theorem base_directory_fallback_witness :
    (check_and_create_base_directory ⟨["home"], [["data"]]⟩ ["missing"]).1 =
      ["home", "archive", "news"]
    ∧ ["home", "archive", "news"] ∈
      (check_and_create_base_directory ⟨["home"], [["data"]]⟩
        ["missing"]).2.dirs
    ∧ check_and_create_base_directory ⟨["home"], [["data"]]⟩ ["data"] =
      (["data"], ⟨["home"], [["data"]]⟩) := by
  have h1 := base_directory_fallback ⟨["home"], [["data"]]⟩ ["missing"]
  have h2 := base_directory_fallback ⟨["home"], [["data"]]⟩ ["data"]
  obtain ⟨ha, hb⟩ := h1.1 (by decide)
  exact ⟨ha, hb, h2.2 (by decide)⟩

lemma sliceBatches_nil (spb : Nat) : sliceBatches spb [] = [] := by
  unfold sliceBatches
  simp

lemma sliceBatches_cons (spb : Nat) (urls : List String) (hs : 0 < spb)
    (hne : urls ≠ []) :
    sliceBatches spb urls =
      urls.take spb :: sliceBatches spb (urls.drop spb) := by
  rw [sliceBatches]
  have hcond : ¬ (spb = 0 ∨ urls = []) := by
    push_neg
    exact ⟨by omega, hne⟩
  rw [dif_neg hcond]

lemma sliceBatches_flatten (spb : Nat) (hs : 0 < spb) (urls : List String) :
    (sliceBatches spb urls).flatten = urls := by
  suffices H : ∀ n (l : List String), l.length ≤ n →
      (sliceBatches spb l).flatten = l from H urls.length urls le_rfl
  intro n
  induction n with
  | zero =>
    intro l hl
    have h0 : l = [] := List.eq_nil_of_length_eq_zero (Nat.le_zero.mp hl)
    subst h0
    rw [sliceBatches_nil]
    rfl
  | succ n ih =>
    intro l hl
    by_cases h : l = []
    · subst h
      rw [sliceBatches_nil]
      rfl
    · rw [sliceBatches_cons spb l hs h, List.flatten_cons,
        ih (l.drop spb) (by simp [List.length_drop]; omega),
        List.take_append_drop]

lemma sliceBatches_size (spb : Nat) (hs : 0 < spb) (urls : List String) :
    ∀ b ∈ sliceBatches spb urls, b.length ≤ spb := by
  suffices H : ∀ n (l : List String), l.length ≤ n →
      ∀ b ∈ sliceBatches spb l, b.length ≤ spb from H urls.length urls le_rfl
  intro n
  induction n with
  | zero =>
    intro l hl
    have h0 : l = [] := List.eq_nil_of_length_eq_zero (Nat.le_zero.mp hl)
    subst h0
    rw [sliceBatches_nil]
    simp
  | succ n ih =>
    intro l hl b hb
    by_cases h : l = []
    · subst h
      rw [sliceBatches_nil] at hb
      simp at hb
    · rw [sliceBatches_cons spb l hs h] at hb
      rcases List.mem_cons.mp hb with rfl | hb'
      · exact l.length_take_le spb
      · exact ih (l.drop spb) (by simp [List.length_drop]; omega) b hb'

lemma run_batches_events (B : List (List String)) :
    ∀ i (hi : i < B.length),
      ∃ pre post,
        run_batches B =
          pre ++ Phase.build (B.get ⟨i, hi⟩) ::
            Phase.fetch (B.get ⟨i, hi⟩) ::
            Phase.extractArticles (B.get ⟨i, hi⟩) :: post
        ∧ pre.length = 3 * i := by
  induction B with
  | nil =>
    intro i hi
    simp at hi
  | cons b bs ih =>
    intro i hi
    cases i with
    | zero => exact ⟨[], run_batches bs, rfl, rfl⟩
    | succ i =>
      obtain ⟨pre, post, heq, hlen⟩ := ih i (by simpa using hi)
      refine ⟨Phase.build b :: Phase.fetch b :: Phase.extractArticles b :: pre,
        post, ?_, ?_⟩
      · simp only [run_batches, heq, List.get_cons_succ, List.cons_append]
      · simp only [List.length_cons, hlen]
        omega

/-- C7: each cycle partitions the source URL list into consecutive
batches of at most `sources_per_batch` URLs whose in-order concatenation
is the original list, and the cycle trace runs the build, fetch and
extract phases of batch `i` contiguously at positions `3i, 3i+1, 3i+2` —
so every phase of batch `i` completes before any phase of batch
`i + 1` starts. -/
theorem cycle_batches_sequential (spb : Nat) (urls : List String)
    (hs : 0 < spb) :
    (sliceBatches spb urls).flatten = urls
    ∧ (∀ b ∈ sliceBatches spb urls, b.length ≤ spb)
    ∧ (∀ i (hi : i < (sliceBatches spb urls).length),
        ∃ pre post,
          run_cycle spb urls =
            pre ++ Phase.build ((sliceBatches spb urls).get ⟨i, hi⟩) ::
              Phase.fetch ((sliceBatches spb urls).get ⟨i, hi⟩) ::
              Phase.extractArticles ((sliceBatches spb urls).get ⟨i, hi⟩) ::
              post
          ∧ pre.length = 3 * i) :=
  ⟨sliceBatches_flatten spb hs urls, sliceBatches_size spb hs urls,
    fun i hi => run_batches_events (sliceBatches spb urls) i hi⟩

/-- C7, witness: three sources with `sources_per_batch = 2` split into
`[s1, s2]` then `[s3]`, concatenating back to the original list, and the
second batch's phases all come after the first batch's three phases. -/
theorem cycle_batches_sequential_witness :
    (sliceBatches 2 ["s1", "s2", "s3"]).flatten = ["s1", "s2", "s3"]
    ∧ (∀ b ∈ sliceBatches 2 ["s1", "s2", "s3"], b.length ≤ 2)
    ∧ (∀ i (hi : i < (sliceBatches 2 ["s1", "s2", "s3"]).length),
        ∃ pre post,
          run_cycle 2 ["s1", "s2", "s3"] =
            pre ++ Phase.build ((sliceBatches 2 ["s1", "s2", "s3"]).get
                ⟨i, hi⟩) ::
              Phase.fetch ((sliceBatches 2 ["s1", "s2", "s3"]).get ⟨i, hi⟩) ::
              Phase.extractArticles ((sliceBatches 2 ["s1", "s2", "s3"]).get
                ⟨i, hi⟩) :: post
          ∧ pre.length = 3 * i) :=
  cycle_batches_sequential 2 ["s1", "s2", "s3"] (by decide)

/-- C2: when source `k` of a batch fails to build, `build_sources` still
records one `build_source` invocation per source — each determined by that
source's own `build()` outcome — and does not itself raise; the failing
source's outcome is the logged error. -/
theorem build_sources_isolates (sources : List PySource) (k : Nat)
    (hk : k < sources.length) (e : PyErr)
    (hfail : (sources.get ⟨k, hk⟩).buildRes = .error e) :
    ∃ t, build_sources sources = Except.ok t
      ∧ t.length = sources.length
      ∧ (∀ j (hj : j < sources.length),
          t[j]? = some ((sources.get ⟨j, hj⟩).url,
            build_source (sources.get ⟨j, hj⟩)))
      ∧ t[k]? = some ((sources.get ⟨k, hk⟩).url,
          BuildOutcome.errorLogged e) := by
  simp only [List.get_eq_getElem] at hfail ⊢
  refine ⟨_, rfl, by simp [build_sources], ?_, ?_⟩
  · intro j hj
    rw [List.getElem?_map, List.getElem?_eq_getElem hj]
    rfl
  · rw [List.getElem?_map, List.getElem?_eq_getElem hk]
    simp [build_source, hfail]

/-- C2, witness: a two-source batch whose first source fails to build; the
second source's build is still invoked and recorded, and `build_sources`
returns normally. -/
theorem build_sources_isolates_witness :
    ∃ t, build_sources
        [⟨"u1", "b1", Except.error PyErr.netError, []⟩,
          ⟨"u2", "b2", Except.ok (), []⟩] = Except.ok t
      ∧ t.length = 2
      ∧ (∀ j (hj : j < ([⟨"u1", "b1", Except.error PyErr.netError, []⟩,
            ⟨"u2", "b2", Except.ok (), []⟩] : List PySource).length),
          t[j]? = some ((([⟨"u1", "b1", Except.error PyErr.netError, []⟩,
              ⟨"u2", "b2", Except.ok (), []⟩] : List PySource).get
                ⟨j, hj⟩).url,
            build_source (([⟨"u1", "b1", Except.error PyErr.netError, []⟩,
              ⟨"u2", "b2", Except.ok (), []⟩] : List PySource).get ⟨j, hj⟩)))
      ∧ t[0]? = some ("u1", BuildOutcome.errorLogged PyErr.netError) :=
  build_sources_isolates
    [⟨"u1", "b1", Except.error PyErr.netError, []⟩,
      ⟨"u2", "b2", Except.ok (), []⟩] 0 (by decide) PyErr.netError rfl

set_option linter.unusedVariables false in
/-- C1: when processing article `j` of source `k` raises at any step —
download, parse or nlp (a logged article error), directory creation (a
logged save failure), or the file write (a logged write error) —
`extract_information` returns normally and its trace still contains one
`process_article` outcome for every article of every source of the batch,
so articles `j+1..M` of the same source and all other sources are still
attempted. -/
theorem extract_information_isolates (uni : String → String)
    (base : List String) (os_type : String) (sources : List PySource)
    (k j : Nat) (hk : k < sources.length)
    (hj : j < (sources.get ⟨k, hk⟩).articles.length) (e : PyErr)
    (hfail :
      process_article uni base os_type (sources.get ⟨k, hk⟩).brand
          ((sources.get ⟨k, hk⟩).articles.get ⟨j, hj⟩) = .errorLogged e
      ∨ process_article uni base os_type (sources.get ⟨k, hk⟩).brand
          ((sources.get ⟨k, hk⟩).articles.get ⟨j, hj⟩) =
          .processed (.failedLogged e)
      ∨ ∃ dir file,
          process_article uni base os_type (sources.get ⟨k, hk⟩).brand
            ((sources.get ⟨k, hk⟩).articles.get ⟨j, hj⟩) =
            .processed (.writeErrorLogged dir file e)) :
    ∃ t, extract_information uni base os_type sources = Except.ok t
      ∧ t.length = sources.length
      ∧ (∀ i (hi : i < sources.length),
          t[i]? = some ((sources.get ⟨i, hi⟩).url,
            extract_source uni base os_type (sources.get ⟨i, hi⟩)))
      ∧ (∀ i (hi : i < sources.length)
          (j' : Nat) (hj' : j' < (sources.get ⟨i, hi⟩).articles.length),
          (extract_source uni base os_type (sources.get ⟨i, hi⟩))[j']? =
            some (process_article uni base os_type
              (sources.get ⟨i, hi⟩).brand
              ((sources.get ⟨i, hi⟩).articles.get ⟨j', hj'⟩))) := by
  refine ⟨_, rfl, by simp [extract_information], ?_, ?_⟩
  · intro i hi
    simp only [List.get_eq_getElem]
    rw [List.getElem?_map, List.getElem?_eq_getElem hi]
    rfl
  · intro i hi j' hj'
    simp only [List.get_eq_getElem] at hj' ⊢
    rw [extract_source, List.getElem?_map, List.getElem?_eq_getElem hj']
    rfl

/-- C1, witness: one source with two articles where article 0's `parse()`
raises; `extract_information` still returns the full trace, with article
0 logged as an error and article 1 processed and saved. -/
theorem extract_information_isolates_witness :
    ∃ t, extract_information id ["base"] "Windows"
        [⟨"u1", "brand1", Except.ok (),
          [⟨Except.ok (), Except.error PyErr.netError, Except.ok (),
            ⟨PyObj.str "Bad", PyTimestamp.other, "p0", false, false⟩⟩,
          ⟨Except.ok (), Except.ok (), Except.ok (),
            ⟨PyObj.str "Good", PyTimestamp.other, "p1", false,
              false⟩⟩]⟩] = Except.ok t
    ∧ (extract_source id ["base"] "Windows"
        ⟨"u1", "brand1", Except.ok (),
          [⟨Except.ok (), Except.error PyErr.netError, Except.ok (),
            ⟨PyObj.str "Bad", PyTimestamp.other, "p0", false, false⟩⟩,
          ⟨Except.ok (), Except.ok (), Except.ok (),
            ⟨PyObj.str "Good", PyTimestamp.other, "p1", false,
              false⟩⟩]⟩)[0]? =
      some (ArticleOutcome.errorLogged PyErr.netError)
    ∧ (extract_source id ["base"] "Windows"
        ⟨"u1", "brand1", Except.ok (),
          [⟨Except.ok (), Except.error PyErr.netError, Except.ok (),
            ⟨PyObj.str "Bad", PyTimestamp.other, "p0", false, false⟩⟩,
          ⟨Except.ok (), Except.ok (), Except.ok (),
            ⟨PyObj.str "Good", PyTimestamp.other, "p1", false,
              false⟩⟩]⟩)[1]? =
      some (ArticleOutcome.processed
        (SaveOutcome.saved ["base", "brand1", "0", "0"]
          "00-00 Good.json")) := by
  have h := extract_information_isolates id ["base"] "Windows"
    [⟨"u1", "brand1", Except.ok (),
      [⟨Except.ok (), Except.error PyErr.netError, Except.ok (),
        ⟨PyObj.str "Bad", PyTimestamp.other, "p0", false, false⟩⟩,
      ⟨Except.ok (), Except.ok (), Except.ok (),
        ⟨PyObj.str "Good", PyTimestamp.other, "p1", false, false⟩⟩]⟩]
    0 0 (by decide) (by decide) PyErr.netError (Or.inl rfl)
  obtain ⟨t, h1, _, _, h4⟩ := h
  refine ⟨t, h1, ?_, ?_⟩
  · exact h4 0 (by decide) 0 (by decide)
  · exact h4 0 (by decide) 1 (by decide)

end NewsCrawler
